import Mathlib

/-!
Verification of the parking-iot access-control core against its design
specification.  The Lean definitions below are a shallow embedding of the
C++ sources:

* `SlotManager`     — src/SlotManager/SlotManager.cpp (slot allocator)
* `Gate`            — src/GateController/GateController.cpp (per-gate state machine)
* `RFIDManagerState`— src/RFIDManager/RFIDManager.cpp (card whitelist + EEPROM)

Modelling conventions:
* Arduino `String` is modelled by Lean `String`; `String::toCharArray(buf, n)`
  truncates to `n - 1` characters, modelled by `String.take (n - 1)`.
* `millis()` / timestamps are passed explicitly as `Nat` arguments; unsigned
  subtraction is `Nat` truncated subtraction (the two agree whenever the
  clock is monotone, i.e. now is at least the stored start time).
* Fixed C arrays are modelled by `List`s; out-of-range reads use `List.getD`
  with a dummy element, mirroring that the code only indexes in range.
* Debug printing is dropped.  Events fired through the `_eventCallback` and
  servo writes are returned as explicit lists so that theorems can speak
  about "zero events emitted" and "actuator not driven".  Event payloads
  (card UID / slot number fields of `GateEventData`) are not needed by any
  claim and are not modelled; an emitted event is represented by its kind.
* `EEPROM.commit()` is modelled as always succeeding; no claim depends on a
  failing commit.
-/

/-! ### Constants from src/Config.h -/

def TOTAL_SLOTS : Nat := 10

def MAX_RFID_CARDS : Nat := 50

def EEPROM_MAGIC : Int := 0xABCD1234

def CARD_SCAN_TIMEOUT : Nat := 10000

def GATE_CLOSE_DELAY : Nat := 2000

def DISPLAY_MESSAGE_DURATION : Nat := 2000

def SERVO_CLOSED_ANGLE : Int := 0

def SERVO_OPEN_ANGLE : Int := 90

/-! ### SlotManager (src/SlotManager/SlotManager.h, .cpp) -/

/-- Mirror of `struct ParkingSlot`. -/
structure ParkingSlot where
  occupied : Bool
  cardUID : String
  entryTime : Nat
  slotNumber : Int
deriving DecidableEq, Repr

/-- Placeholder used for (never taken) out-of-range array reads. -/
def dummySlot : ParkingSlot := { occupied := false, cardUID := "", entryTime := 0, slotNumber := 0 }

/-- Mirror of `class SlotManager`: the slot array, the cached
`_availableSlots` counter (a C `int`) and the `_initialized` flag. -/
structure SlotManager where
  slots : List ParkingSlot
  availableSlots : Int
  initialized : Bool
deriving DecidableEq, Repr

/-- `SlotManager::begin`: every slot cleared, 1-based slot numbers assigned,
counter reset, `_initialized` set. -/
def SlotManager.begin : SlotManager :=
  { slots := (List.range TOTAL_SLOTS).map
      (fun i => { occupied := false, cardUID := "", entryTime := 0, slotNumber := Int.ofNat (i + 1) }),
    availableSlots := Int.ofNat TOTAL_SLOTS,
    initialized := true }

/-- Loop body of `SlotManager::findSlotByCard`: first occupied slot whose
stored `cardUID` equals the query, returning its stored `slotNumber`. -/
def findSlotByCardAux (cardUID : String) : List ParkingSlot → Int
  | [] => -1
  | s :: rest => if s.occupied = true ∧ cardUID = s.cardUID then s.slotNumber else findSlotByCardAux cardUID rest

/-- `SlotManager::findSlotByCard`. -/
def SlotManager.findSlotByCard (m : SlotManager) (cardUID : String) : Int :=
  findSlotByCardAux cardUID m.slots

/-- Loop body of `SlotManager::findAvailableSlot`: 0-based index of the first
free slot, `-1` if every slot is occupied.  The accumulator `k` is the index
of the head of the remaining list. -/
def findAvailableSlotAux : Nat → List ParkingSlot → Int
  | _, [] => -1
  | k, s :: rest => if s.occupied = true then findAvailableSlotAux (k + 1) rest else Int.ofNat k

/-- `SlotManager::findAvailableSlot`. -/
def SlotManager.findAvailableSlot (m : SlotManager) : Int :=
  findAvailableSlotAux 0 m.slots

/-- `SlotManager::isValidSlotNumber`: 1-based slot numbers `1..TOTAL_SLOTS`. -/
abbrev isValidSlotNumber (slotNumber : Int) : Prop :=
  1 ≤ slotNumber ∧ slotNumber ≤ (TOTAL_SLOTS : Int)

/-- `SlotManager::allocateSlot cardUID entryTime` with the current clock
`millis() / 1000` passed as `nowSec`.  Returns the C function's `int` result
paired with the post-state. -/
def SlotManager.allocateSlot (m : SlotManager) (cardUID : String) (entryTime nowSec : Nat) :
    Int × SlotManager :=
  if m.initialized = false then (-1, m)
  else if m.findSlotByCard cardUID ≠ -1 then (m.findSlotByCard cardUID, m)
  else if m.findAvailableSlot = -1 then (-1, m)
  else
    ((m.slots.getD m.findAvailableSlot.toNat dummySlot).slotNumber,
     { m with
        slots := m.slots.set m.findAvailableSlot.toNat
          { m.slots.getD m.findAvailableSlot.toNat dummySlot with
              occupied := true,
              cardUID := cardUID.take 19,
              entryTime := if entryTime = 0 then nowSec else entryTime },
        availableSlots := m.availableSlots - 1 })

/-- `SlotManager::releaseSlot slotNumber` with the current clock
`millis() / 1000` passed as `nowSec`.  Returns the duration paired with the
post-state. -/
def SlotManager.releaseSlot (m : SlotManager) (slotNumber : Int) (nowSec : Nat) :
    Nat × SlotManager :=
  if m.initialized = false ∨ ¬ isValidSlotNumber slotNumber then (0, m)
  else if (m.slots.getD (slotNumber - 1).toNat dummySlot).occupied = false then (0, m)
  else
    (nowSec - (m.slots.getD (slotNumber - 1).toNat dummySlot).entryTime,
     { m with
        slots := m.slots.set (slotNumber - 1).toNat
          { m.slots.getD (slotNumber - 1).toNat dummySlot with
              occupied := false, cardUID := "", entryTime := 0 },
        availableSlots := m.availableSlots + 1 })

/-- `SlotManager::releaseSlotByCard`: returns (duration, out-param slotNumber,
post-state). -/
def SlotManager.releaseSlotByCard (m : SlotManager) (cardUID : String) (nowSec : Nat) :
    Nat × Int × SlotManager :=
  if m.findSlotByCard cardUID = -1 then (0, -1, m)
  else
    ((m.releaseSlot (m.findSlotByCard cardUID) nowSec).1,
     m.findSlotByCard cardUID,
     (m.releaseSlot (m.findSlotByCard cardUID) nowSec).2)

/-- `SlotManager::isSlotOccupied`. -/
def SlotManager.isSlotOccupied (m : SlotManager) (slotNumber : Int) : Bool :=
  if ¬ isValidSlotNumber slotNumber then false
  else (m.slots.getD (slotNumber - 1).toNat dummySlot).occupied

/-- `SlotManager::clearAllSlots`. -/
def SlotManager.clearAllSlots (m : SlotManager) : SlotManager :=
  { m with
      slots := m.slots.map (fun s => { s with occupied := false, cardUID := "", entryTime := 0 }),
      availableSlots := Int.ofNat TOTAL_SLOTS }

/-- C2: if the card `uid` already holds a slot (an occupied slot stores
exactly this UID, so `findSlotByCard` returns it), a repeated
`allocateSlot uid` returns that same slot number and leaves the whole
allocator state — in particular `availableSlots` — unchanged. -/
theorem allocateSlot_idempotent (m : SlotManager) (uid : String) (entryTime nowSec : Nat)
    (n : Int) (hinit : m.initialized = true) (hheld : m.findSlotByCard uid = n)
    (hn : n ≠ -1) :
    m.allocateSlot uid entryTime nowSec = (n, m) := by
  simp [SlotManager.allocateSlot, hinit, hheld, hn]

/-- Witness for C2: allocate a slot from the fresh allocator, then allocate
the same card again; slot 1 is returned and the state is untouched. -/
theorem allocateSlot_idempotent_witness :
    ((SlotManager.begin.allocateSlot "0A1B2C3D" 5 7).2).allocateSlot "0A1B2C3D" 0 9
      = (1, (SlotManager.begin.allocateSlot "0A1B2C3D" 5 7).2) :=
  allocateSlot_idempotent _ _ 0 9 1 (by decide) (by decide) (by decide)

/-! ### The slot-count invariant (claim C1) and first-fit behaviour (C5) -/

/-- Number of slots whose `occupied` flag is set (the spec-side measure the
cached counter is compared against). -/
def occupiedCount : List ParkingSlot → Nat
  | [] => 0
  | s :: rest => (if s.occupied = true then 1 else 0) + occupiedCount rest

theorem occupiedCount_set (l : List ParkingSlot) (i : Nat) (b : ParkingSlot)
    (h : i < l.length) :
    occupiedCount (l.set i b) + (if (l.getD i dummySlot).occupied = true then 1 else 0)
      = occupiedCount l + (if b.occupied = true then 1 else 0) := by
  induction l generalizing i with
  | nil => simp at h
  | cons a t ih =>
    cases i with
    | zero =>
      cases ha : a.occupied <;> cases hb : b.occupied <;>
        simp [occupiedCount, ha, hb] <;> omega
    | succ k =>
      have hk : k < t.length := by simpa using h
      have hrec := ih k hk
      cases ha : a.occupied <;> simp [occupiedCount, ha, List.getD_cons_succ] at hrec ⊢ <;> omega

theorem occupiedCount_set_occupy (l : List ParkingSlot) (i : Nat) (b : ParkingSlot)
    (h : i < l.length) (hfree : (l.getD i dummySlot).occupied = false)
    (hb : b.occupied = true) :
    occupiedCount (l.set i b) = occupiedCount l + 1 := by
  have hset := occupiedCount_set l i b h
  rw [hfree, hb] at hset
  simpa using hset

theorem occupiedCount_set_release (l : List ParkingSlot) (i : Nat) (b : ParkingSlot)
    (h : i < l.length) (hocc : (l.getD i dummySlot).occupied = true)
    (hb : b.occupied = false) :
    occupiedCount l = occupiedCount (l.set i b) + 1 := by
  have hset := occupiedCount_set l i b h
  rw [hocc, hb] at hset
  simp at hset
  omega

theorem occupiedCount_clear (l : List ParkingSlot) :
    occupiedCount (l.map (fun s => { s with occupied := false, cardUID := "", entryTime := 0 })) = 0 := by
  induction l with
  | nil => rfl
  | cons a t ih => simp [occupiedCount, ih]

theorem findAvailableSlotAux_none (l : List ParkingSlot) (k : Nat)
    (h : ∀ s ∈ l, s.occupied = true) : findAvailableSlotAux k l = -1 := by
  induction l generalizing k with
  | nil => rfl
  | cons a t ih =>
    have ha : a.occupied = true := h a (List.mem_cons_self a t)
    simp [findAvailableSlotAux, ha]
    exact ih (k + 1) (fun s hs => h s (List.mem_cons_of_mem a hs))

theorem findAvailableSlotAux_min (l : List ParkingSlot) (k i : Nat) (hi : i < l.length)
    (hfree : (l.getD i dummySlot).occupied = false)
    (hmin : ∀ j, j < i → (l.getD j dummySlot).occupied = true) :
    findAvailableSlotAux k l = Int.ofNat (k + i) := by
  induction l generalizing k i with
  | nil => simp at hi
  | cons a t ih =>
    cases i with
    | zero =>
      simp only [List.getD_cons_zero] at hfree
      simp [findAvailableSlotAux, hfree]
    | succ i2 =>
      have ha : a.occupied = true := by simpa using hmin 0 (Nat.succ_pos i2)
      have hrec := ih (k + 1) i2 (by simpa using hi) (by simpa using hfree)
        (fun j hj => by simpa using hmin (j + 1) (by omega))
      simp [findAvailableSlotAux, ha, hrec]
      omega

/-- `findAvailableSlot` either reports every slot occupied, or returns the
least free index. -/
theorem findAvailableSlotAux_cases (l : List ParkingSlot) (k : Nat) :
    (findAvailableSlotAux k l = -1 ∧ ∀ s ∈ l, s.occupied = true) ∨
    (∃ i, findAvailableSlotAux k l = Int.ofNat (k + i) ∧ i < l.length ∧
      (l.getD i dummySlot).occupied = false ∧
      ∀ j, j < i → (l.getD j dummySlot).occupied = true) := by
  induction l generalizing k with
  | nil => left; exact ⟨rfl, by simp⟩
  | cons a t ih =>
    cases ha : a.occupied with
    | false =>
      right
      exact ⟨0, by simp [findAvailableSlotAux, ha], by simp, by simp [ha],
        fun j hj => absurd hj (Nat.not_lt_zero j)⟩
    | true =>
      rcases ih (k + 1) with ⟨h1, h2⟩ | ⟨i, h1, h2, h3, h4⟩
      · left
        refine ⟨by simp [findAvailableSlotAux, ha, h1], ?_⟩
        intro s hs
        rcases List.mem_cons.mp hs with rfl | hs2
        · exact ha
        · exact h2 s hs2
      · right
        refine ⟨i + 1, ?_, by simpa using h2, by simpa using h3, ?_⟩
        · simp [findAvailableSlotAux, ha, h1]
          omega
        · intro j hj
          cases j with
          | zero => simpa using ha
          | succ j2 => simpa using h4 j2 (by omega)

/-- The allocator invariant: the slot array has its fixed size and the
cached `availableSlots` counter plus the number of occupied slots equals
`TOTAL_SLOTS`. -/
def SlotInv (m : SlotManager) : Prop :=
  m.slots.length = TOTAL_SLOTS ∧
  m.availableSlots + (occupiedCount m.slots : Int) = (TOTAL_SLOTS : Int)

theorem SlotInv_allocateSlot (m : SlotManager) (uid : String) (t now : Nat)
    (h : SlotInv m) : SlotInv (m.allocateSlot uid t now).2 := by
  unfold SlotManager.allocateSlot
  split
  · exact h
  split
  · exact h
  split
  · exact h
  rename_i hfound
  rcases findAvailableSlotAux_cases m.slots 0 with ⟨hc, _⟩ | ⟨i, hc, hlt, hfree, _⟩
  · exact absurd hc hfound
  obtain ⟨hlen, hsum⟩ := h
  have hfa : m.findAvailableSlot = Int.ofNat i := by simpa using hc
  have hidx : m.findAvailableSlot.toNat = i := by simp [hfa]
  rw [hidx]
  have hocc2 := occupiedCount_set_occupy m.slots i
    { m.slots.getD i dummySlot with
        occupied := true, cardUID := uid.take 19,
        entryTime := if t = 0 then now else t } hlt hfree rfl
  constructor
  · simpa using hlen
  · rw [hocc2]
    push_cast
    omega

theorem SlotInv_releaseSlot (m : SlotManager) (n : Int) (now : Nat)
    (h : SlotInv m) : SlotInv (m.releaseSlot n now).2 := by
  unfold SlotManager.releaseSlot
  split
  · exact h
  split
  · exact h
  rename_i hcond hocc
  obtain ⟨hlen, hsum⟩ := h
  have hval : isValidSlotNumber n := by
    by_contra hbad
    exact hcond (Or.inr hbad)
  have hidx : (n - 1).toNat < m.slots.length := by
    obtain ⟨h1, h2⟩ := hval
    rw [hlen]
    unfold TOTAL_SLOTS at h2 ⊢
    omega
  have hocc2 : (m.slots.getD (n - 1).toNat dummySlot).occupied = true := by
    cases hx : (m.slots.getD (n - 1).toNat dummySlot).occupied with
    | false => exact absurd hx hocc
    | true => rfl
  have hrel := occupiedCount_set_release m.slots (n - 1).toNat
    { m.slots.getD (n - 1).toNat dummySlot with
        occupied := false, cardUID := "", entryTime := 0 } hidx hocc2 rfl
  constructor
  · simpa using hlen
  · show m.availableSlots + 1 + (occupiedCount (m.slots.set (n - 1).toNat
        { m.slots.getD (n - 1).toNat dummySlot with
            occupied := false, cardUID := "", entryTime := 0 }) : Int) = (TOTAL_SLOTS : Int)
    omega

theorem SlotInv_releaseSlotByCard (m : SlotManager) (uid : String) (now : Nat)
    (h : SlotInv m) : SlotInv (m.releaseSlotByCard uid now).2.2 := by
  unfold SlotManager.releaseSlotByCard
  split
  · exact h
  · exact SlotInv_releaseSlot m _ now h

theorem SlotInv_clearAllSlots (m : SlotManager) (h : SlotInv m) :
    SlotInv m.clearAllSlots := by
  obtain ⟨hlen, _⟩ := h
  constructor
  · simpa [SlotManager.clearAllSlots] using hlen
  · simp [SlotManager.clearAllSlots, occupiedCount_clear]

/-- One public slot-allocator operation, as named in claim C1. -/
inductive SlotOp where
  | alloc (cardUID : String) (entryTime nowSec : Nat)
  | release (slotNumber : Int) (nowSec : Nat)
  | releaseByCard (cardUID : String) (nowSec : Nat)
  | clearAll
deriving DecidableEq, Repr

def applySlotOp (op : SlotOp) (m : SlotManager) : SlotManager :=
  match op with
  | .alloc uid t now => (m.allocateSlot uid t now).2
  | .release n now => (m.releaseSlot n now).2
  | .releaseByCard uid now => (m.releaseSlotByCard uid now).2.2
  | .clearAll => m.clearAllSlots

def runSlotOps (ops : List SlotOp) (m : SlotManager) : SlotManager :=
  List.foldl (fun acc op => applySlotOp op acc) m ops

theorem SlotInv_applySlotOp (op : SlotOp) (m : SlotManager) (h : SlotInv m) :
    SlotInv (applySlotOp op m) := by
  cases op with
  | alloc uid t now => exact SlotInv_allocateSlot m uid t now h
  | release n now => exact SlotInv_releaseSlot m n now h
  | releaseByCard uid now => exact SlotInv_releaseSlotByCard m uid now h
  | clearAll => exact SlotInv_clearAllSlots m h

theorem SlotInv_runSlotOps (ops : List SlotOp) (m : SlotManager) (h : SlotInv m) :
    SlotInv (runSlotOps ops m) := by
  induction ops generalizing m with
  | nil => exact h
  | cons op rest ih =>
    exact ih (applySlotOp op m) (SlotInv_applySlotOp op m h)

/-- C1: starting from `begin`, every sequence of public slot operations
(allocate, release, release-by-card, clear-all) preserves the invariant
that the cached `availableSlots` counter plus the number of occupied slots
equals `TOTAL_SLOTS`. -/
theorem slotManager_available_invariant (ops : List SlotOp) :
    (runSlotOps ops SlotManager.begin).availableSlots
      + (occupiedCount (runSlotOps ops SlotManager.begin).slots : Int)
      = (TOTAL_SLOTS : Int) :=
  (SlotInv_runSlotOps ops SlotManager.begin ⟨by decide, by decide⟩).2

/-- Structural well-formedness established by `begin` and never modified:
the slot array has its fixed size and slot `i` (0-based) carries the 1-based
number `i + 1`. -/
def SlotWf (m : SlotManager) : Prop :=
  m.slots.length = TOTAL_SLOTS ∧
  ∀ i, i < TOTAL_SLOTS → (m.slots.getD i dummySlot).slotNumber = Int.ofNat (i + 1)

/-- C5: for an initialized allocator whose card does not already hold a slot,
`allocateSlot` is first-fit — if some slot is free it takes the lowest free
index `i` (every smaller index occupied) and returns slot number `i + 1`,
decrementing the counter; if every slot is occupied it returns the sentinel
`-1` and changes nothing. -/
theorem allocateSlot_first_fit (m : SlotManager) (uid : String) (t now : Nat)
    (hinit : m.initialized = true) (hwf : SlotWf m)
    (hnone : m.findSlotByCard uid = -1) :
    ((∀ s ∈ m.slots, s.occupied = true) → m.allocateSlot uid t now = (-1, m)) ∧
    (∀ i, i < TOTAL_SLOTS → (m.slots.getD i dummySlot).occupied = false →
      (∀ j, j < i → (m.slots.getD j dummySlot).occupied = true) →
      m.allocateSlot uid t now =
        (Int.ofNat (i + 1),
         { m with
            slots := m.slots.set i
              { m.slots.getD i dummySlot with
                  occupied := true, cardUID := uid.take 19,
                  entryTime := if t = 0 then now else t },
            availableSlots := m.availableSlots - 1 })) := by
  obtain ⟨hlen, hnum⟩ := hwf
  constructor
  · intro hfull
    have hfa : m.findAvailableSlot = -1 := findAvailableSlotAux_none m.slots 0 hfull
    simp [SlotManager.allocateSlot, hinit, hnone, hfa]
  · intro i hi hfree hmin
    have hfa : m.findAvailableSlot = Int.ofNat i := by
      have := findAvailableSlotAux_min m.slots 0 i (by omega) hfree hmin
      simpa [SlotManager.findAvailableSlot] using this
    have hidx : m.findAvailableSlot.toNat = i := by simp [hfa]
    have hne : ¬ m.findAvailableSlot = -1 := by simp [hfa]
    unfold SlotManager.allocateSlot
    rw [if_neg (by simp [hinit]), if_neg (by simp [hnone]), if_neg hne, hidx, hnum i hi]

/-- Witness for C5: on the fresh allocator a new card gets slot 1 (index 0),
with the counter decremented. -/
theorem allocateSlot_first_fit_witness :
    SlotManager.begin.allocateSlot "1A2B3C4D" 0 50 =
      (Int.ofNat (0 + 1),
       { SlotManager.begin with
          slots := SlotManager.begin.slots.set 0
            { SlotManager.begin.slots.getD 0 dummySlot with
                occupied := true, cardUID := String.take "1A2B3C4D" 19,
                entryTime := if 0 = 0 then 50 else 0 },
          availableSlots := SlotManager.begin.availableSlots - 1 }) :=
  (allocateSlot_first_fit SlotManager.begin "1A2B3C4D" 0 50 (by decide)
    ⟨by decide, by decide⟩ (by decide)).2 0 (by decide) (by decide)
    (fun j hj => absurd hj (Nat.not_lt_zero j))

/-- C6: `releaseSlot` is double-release safe — on any slot that is not
occupied (including invalid slot numbers) it returns 0 and leaves the state
unchanged; on an occupied slot of an initialized allocator it clears the
holder UID and entry time, increments the counter, and returns the elapsed
seconds `nowSec - entryTime`. -/
theorem releaseSlot_contract (m : SlotManager) (slotNumber : Int) (nowSec : Nat) :
    (m.isSlotOccupied slotNumber = false → m.releaseSlot slotNumber nowSec = (0, m)) ∧
    (m.initialized = true → isValidSlotNumber slotNumber →
      (m.slots.getD (slotNumber - 1).toNat dummySlot).occupied = true →
      m.releaseSlot slotNumber nowSec =
        (nowSec - (m.slots.getD (slotNumber - 1).toNat dummySlot).entryTime,
         { m with
            slots := m.slots.set (slotNumber - 1).toNat
              { m.slots.getD (slotNumber - 1).toNat dummySlot with
                  occupied := false, cardUID := "", entryTime := 0 },
            availableSlots := m.availableSlots + 1 })) := by
  constructor
  · intro hfalse
    rw [SlotManager.releaseSlot]
    split
    · rfl
    · rename_i hcond
      have hval : isValidSlotNumber slotNumber := by
        by_contra hbad
        exact hcond (Or.inr hbad)
      rw [SlotManager.isSlotOccupied, if_neg (not_not_intro hval)] at hfalse
      rw [if_pos hfalse]
  · intro hinit hval hocc
    rw [SlotManager.releaseSlot]
    rw [if_neg (by simp [hinit, hval]), if_neg (by rw [hocc]; decide)]

/-- Witness for C6: releasing free slot 3 of the fresh allocator is a no-op
returning 0; releasing slot 1 after allocating it at time 5 returns the
elapsed 95 seconds and clears the slot. -/
theorem releaseSlot_contract_witness :
    (SlotManager.begin.releaseSlot 3 100 = (0, SlotManager.begin)) ∧
    ((SlotManager.begin.allocateSlot "0A1B2C3D" 5 0).2.releaseSlot 1 100 =
      (100 - ((SlotManager.begin.allocateSlot "0A1B2C3D" 5 0).2.slots.getD
          ((1 : Int) - 1).toNat dummySlot).entryTime,
       { (SlotManager.begin.allocateSlot "0A1B2C3D" 5 0).2 with
          slots := (SlotManager.begin.allocateSlot "0A1B2C3D" 5 0).2.slots.set
            ((1 : Int) - 1).toNat
            { (SlotManager.begin.allocateSlot "0A1B2C3D" 5 0).2.slots.getD
                ((1 : Int) - 1).toNat dummySlot with
                occupied := false, cardUID := "", entryTime := 0 },
          availableSlots := (SlotManager.begin.allocateSlot "0A1B2C3D" 5 0).2.availableSlots + 1 })) :=
  ⟨(releaseSlot_contract SlotManager.begin 3 100).1 (by decide),
   (releaseSlot_contract (SlotManager.begin.allocateSlot "0A1B2C3D" 5 0).2 1 100).2
     (by decide) (by decide) (by decide)⟩

/-! ### GateController (src/GateController/GateController.h, .cpp) -/

/-- Mirror of `enum GateState`. -/
inductive GState where
  | idle
  | waitingCard
  | barrierOpen
  | closingDelay
deriving DecidableEq, Repr

/-- Kinds of `GateEvent` fired through the event callback.  Event payloads
(`cardUID` / `slotNumber` fields of `GateEventData`) are not modelled; no
claim refers to them. -/
inductive GEvent where
  | vehicleDetected
  | vehicleLeft
  | cardScanned
  | cardDenied
  | parkingFull
  | vehiclePassed
  | timeout
deriving DecidableEq, Repr

/-- Mirror of `class GateController`'s mutable state.  The IR reading and
`millis()` are passed to `update` explicitly; servo writes (angles) are
returned explicitly. -/
structure Gate where
  state : GState
  stateStartTime : Nat
  vehicleWasDetected : Bool
  initialized : Bool
  lastScannedCard : String
deriving DecidableEq, Repr

/-- `GateController::update`, as a function of the current IR reading `det`
and the clock `now` (`millis()`).  Returns (post-state, fired events, servo
angle writes).  Inside `STATE_WAITING_CARD` the two `if`s run sequentially:
a vehicle-left transition resets `_stateStartTime` to `now` before the
timeout comparison, which therefore sees elapsed `now - now`. -/
def Gate.update (g : Gate) (det : Bool) (now : Nat) : Gate × List GEvent × List Int :=
  if g.initialized = false then (g, [], [])
  else
    match g.state with
    | GState.idle =>
        if det = true ∧ g.vehicleWasDetected = false then
          ({ g with state := GState.waitingCard, stateStartTime := now, vehicleWasDetected := det },
           [GEvent.vehicleDetected], [])
        else ({ g with vehicleWasDetected := det }, [], [])
    | GState.waitingCard =>
        if det = false ∧ g.vehicleWasDetected = true then
          if CARD_SCAN_TIMEOUT < now - now then
            ({ g with state := GState.idle, stateStartTime := now, vehicleWasDetected := det },
             [GEvent.vehicleLeft, GEvent.timeout], [])
          else
            ({ g with state := GState.idle, stateStartTime := now, vehicleWasDetected := det },
             [GEvent.vehicleLeft], [])
        else
          if CARD_SCAN_TIMEOUT < now - g.stateStartTime then
            ({ g with state := GState.idle, stateStartTime := now, vehicleWasDetected := det },
             [GEvent.timeout], [])
          else ({ g with vehicleWasDetected := det }, [], [])
    | GState.barrierOpen =>
        if det = false ∧ g.vehicleWasDetected = true then
          ({ g with state := GState.closingDelay, stateStartTime := now, vehicleWasDetected := det },
           [GEvent.vehiclePassed], [])
        else ({ g with vehicleWasDetected := det }, [], [])
    | GState.closingDelay =>
        if GATE_CLOSE_DELAY ≤ now - g.stateStartTime then
          ({ g with state := GState.idle, stateStartTime := now, vehicleWasDetected := det },
           [], [SERVO_CLOSED_ANGLE])
        else ({ g with vehicleWasDetected := det }, [], [])

/-- `GateController::handleCardScanned`.  The denied / parking-full branches
run the blocking `delay(DISPLAY_MESSAGE_DURATION)` before `setState`, so the
recorded state-entry time there is `now + DISPLAY_MESSAGE_DURATION`. -/
def Gate.handleCardScanned (g : Gate) (cardUID : String) (authorized : Bool)
    (slotNumber : Int) (parkingFull : Bool) (now : Nat) : Gate × List GEvent × List Int :=
  if g.state ≠ GState.waitingCard then (g, [], [])
  else if authorized = false then
    ({ g with
        lastScannedCard := cardUID, state := GState.idle,
        stateStartTime := now + DISPLAY_MESSAGE_DURATION },
     [GEvent.cardDenied], [])
  else if parkingFull = true then
    ({ g with
        lastScannedCard := cardUID, state := GState.idle,
        stateStartTime := now + DISPLAY_MESSAGE_DURATION },
     [GEvent.parkingFull], [])
  else
    ({ g with lastScannedCard := cardUID, state := GState.barrierOpen, stateStartTime := now },
     [GEvent.cardScanned], [SERVO_OPEN_ANGLE])

/-- C3: in every state other than WaitingCard, `handleCardScanned` is a
no-op for every argument vector — state unchanged, zero events fired, no
servo write. -/
theorem handleCardScanned_stale_noop (g : Gate) (cardUID : String) (authorized : Bool)
    (slotNumber : Int) (parkingFull : Bool) (now : Nat)
    (h : g.state ≠ GState.waitingCard) :
    g.handleCardScanned cardUID authorized slotNumber parkingFull now = (g, [], []) := by
  rw [Gate.handleCardScanned, if_pos h]

/-- Witness for C3: a scan result delivered while Idle is dropped. -/
theorem handleCardScanned_stale_noop_witness :
    Gate.handleCardScanned
      { state := GState.idle, stateStartTime := 0, vehicleWasDetected := false,
        initialized := true, lastScannedCard := "" }
      "0A1B2C3D" true 4 false 500
      = ({ state := GState.idle, stateStartTime := 0, vehicleWasDetected := false,
           initialized := true, lastScannedCard := "" }, [], []) :=
  handleCardScanned_stale_noop _ "0A1B2C3D" true 4 false 500 (by decide)

/-- C4 (amended): in WaitingCard with presence unchanged from the previous
tick, the timeout transition fires exactly when the elapsed time strictly
exceeds `CARD_SCAN_TIMEOUT` (the code compares with `>`, not `≥`): the gate
returns to Idle and exactly one Timeout event is emitted. -/
theorem waitingCard_timeout_strict (g : Gate) (det : Bool) (now : Nat)
    (hinit : g.initialized = true) (hstate : g.state = GState.waitingCard)
    (hpres : det = g.vehicleWasDetected)
    (htime : CARD_SCAN_TIMEOUT < now - g.stateStartTime) :
    g.update det now =
      ({ g with state := GState.idle, stateStartTime := now, vehicleWasDetected := det },
       [GEvent.timeout], []) := by
  rw [Gate.update, if_neg (by simp [hinit]), hstate]
  have hedge : ¬ (det = false ∧ g.vehicleWasDetected = true) := by
    rintro ⟨h1, h2⟩
    rw [h1] at hpres
    rw [h2] at hpres
    exact Bool.false_ne_true hpres
  rw [if_neg hedge, if_pos htime]

/-- Witness for C4's amended theorem: at elapsed 10001 ms the timeout fires. -/
theorem waitingCard_timeout_strict_witness :
    Gate.update
      { state := GState.waitingCard, stateStartTime := 0, vehicleWasDetected := true,
        initialized := true, lastScannedCard := "" } true 10001
      = ({ state := GState.idle, stateStartTime := 10001, vehicleWasDetected := true,
           initialized := true, lastScannedCard := "" }, [GEvent.timeout], []) :=
  waitingCard_timeout_strict _ true 10001 (by decide) (by decide) (by decide) (by decide)

/-- Counterexample to C4 as stated: with presence steady and elapsed time
exactly equal to `CARD_SCAN_TIMEOUT` (10000 ms), the code does not fire the
timeout — the gate stays in WaitingCard and no event is emitted, because the
comparison is strict. -/
theorem waitingCard_timeout_boundary_cex :
    (Gate.update
      { state := GState.waitingCard, stateStartTime := 0, vehicleWasDetected := true,
        initialized := true, lastScannedCard := "" } true 10000).1.state
        = GState.waitingCard ∧
    (Gate.update
      { state := GState.waitingCard, stateStartTime := 0, vehicleWasDetected := true,
        initialized := true, lastScannedCard := "" } true 10000).2.1 = [] := by
  constructor
  · rfl
  · rfl

/-- C9: presence detection in Idle is edge-triggered — on an absent-to-present
edge the gate moves to WaitingCard and fires exactly one VehicleDetected
event, while with the vehicle already present on the previous tick the update
changes nothing and fires nothing. -/
theorem idle_edge_triggered (g : Gate) (now : Nat)
    (hinit : g.initialized = true) (hidle : g.state = GState.idle) :
    (g.vehicleWasDetected = false →
      g.update true now =
        ({ g with state := GState.waitingCard, stateStartTime := now, vehicleWasDetected := true },
         [GEvent.vehicleDetected], [])) ∧
    (g.vehicleWasDetected = true → g.update true now = (g, [], [])) := by
  constructor
  · intro hwas
    rw [Gate.update, if_neg (by simp [hinit]), hidle, if_pos ⟨rfl, hwas⟩]
  · intro hwas
    cases g
    simp_all [Gate.update]

/-- Witness for C9: the rising edge fires one VehicleDetected; a steadily
present vehicle is ignored on the following tick. -/
theorem idle_edge_triggered_witness :
    (Gate.update
      { state := GState.idle, stateStartTime := 0, vehicleWasDetected := false,
        initialized := true, lastScannedCard := "" } true 42
      = ({ state := GState.waitingCard, stateStartTime := 42, vehicleWasDetected := true,
           initialized := true, lastScannedCard := "" }, [GEvent.vehicleDetected], [])) ∧
    (Gate.update
      { state := GState.idle, stateStartTime := 0, vehicleWasDetected := true,
        initialized := true, lastScannedCard := "" } true 42
      = ({ state := GState.idle, stateStartTime := 0, vehicleWasDetected := true,
           initialized := true, lastScannedCard := "" }, [], [])) :=
  ⟨(idle_edge_triggered _ 42 (by decide) (by decide)).1 (by decide),
   (idle_edge_triggered _ 42 (by decide) (by decide)).2 (by decide)⟩

/-! ### RFIDManager (src/RFIDManager/RFIDManager.h, .cpp) -/

/-- Mirror of `struct RFIDCard`. -/
structure RFIDCard where
  uid : String
  isActive : Bool
  accessLevel : Int
  ownerName : String
deriving DecidableEq, Repr

/-- Placeholder used for (never taken) out-of-range array reads. -/
def dummyCard : RFIDCard := { uid := "", isActive := false, accessLevel := 0, ownerName := "" }

/-- Mirror of `struct EEPROMData`, the persisted snapshot: magic tag, signed
card count, card array (entries past `numCards` are unspecified, read via
`getD`). -/
structure EEPROMData where
  magic : Int
  numCards : Int
  cards : List RFIDCard
deriving DecidableEq, Repr

/-- In-memory whitelist plus the EEPROM contents.  `_authorizedCards` holds
`_numCards` meaningful entries, modelled as a list of exactly that length. -/
structure RFIDManagerState where
  authorizedCards : List RFIDCard
  eeprom : EEPROMData
deriving DecidableEq, Repr

/-- The five built-in cards written by `RFIDManager::resetToDefaults`
(DEFAULT_CARD_1..5 in Config.h). -/
def defaultCards : List RFIDCard :=
  [{ uid := "0A1B2C3D", isActive := true, accessLevel := 1, ownerName := "Admin" },
   { uid := "1A2B3C4D", isActive := true, accessLevel := 0, ownerName := "User1" },
   { uid := "2A3B4C5D", isActive := true, accessLevel := 0, ownerName := "User2" },
   { uid := "83DF0756", isActive := true, accessLevel := 0, ownerName := "Card1" },
   { uid := "739E3F13", isActive := true, accessLevel := 0, ownerName := "Card2" }]

/-- Loop body of `RFIDManager::findCardIndex`: index of the first record
whose stored UID equals the query (the `isActive` flag is not consulted). -/
def findCardIndexAux (uid : String) : Nat → List RFIDCard → Int
  | _, [] => -1
  | k, c :: rest => if uid = c.uid then Int.ofNat k else findCardIndexAux uid (k + 1) rest

/-- `RFIDManager::findCardIndex`. -/
def RFIDManagerState.findCardIndex (w : RFIDManagerState) (uid : String) : Int :=
  findCardIndexAux uid 0 w.authorizedCards

/-- Loop body of `RFIDManager::isAuthorized`: true on the first record whose
stored UID equals the query and whose `isActive` flag is set. -/
def isAuthorizedAux (uid : String) : List RFIDCard → Bool
  | [] => false
  | c :: rest => if uid = c.uid ∧ c.isActive = true then true else isAuthorizedAux uid rest

/-- `RFIDManager::isAuthorized` (boolean result). -/
def RFIDManagerState.isAuthorized (w : RFIDManagerState) (uid : String) : Bool :=
  isAuthorizedAux uid w.authorizedCards

/-- `RFIDManager::saveToEEPROM`: writes tag, count and the live records to
EEPROM; `EEPROM.commit()` is modelled as succeeding. -/
def RFIDManagerState.saveToEEPROM (w : RFIDManagerState) : Bool × RFIDManagerState :=
  (true,
   { w with eeprom :=
      { magic := EEPROM_MAGIC,
        numCards := Int.ofNat w.authorizedCards.length,
        cards := w.authorizedCards } })

/-- `RFIDManager::addCard`: fails without mutation if the UID is already
present or the whitelist is full, otherwise appends the (truncated) record
and saves. -/
def RFIDManagerState.addCard (w : RFIDManagerState) (uid ownerName : String)
    (accessLevel : Int) : Bool × RFIDManagerState :=
  if w.findCardIndex uid ≠ -1 then (false, w)
  else if MAX_RFID_CARDS ≤ w.authorizedCards.length then (false, w)
  else
    RFIDManagerState.saveToEEPROM
      { w with authorizedCards := w.authorizedCards ++
          [{ uid := uid.take 19, isActive := true,
             accessLevel := accessLevel, ownerName := ownerName.take 31 }] }

/-- `RFIDManager::removeCard`: fails without mutation if the UID is absent,
otherwise removes the record by shifting the tail down (compaction) and
saves. -/
def RFIDManagerState.removeCard (w : RFIDManagerState) (uid : String) :
    Bool × RFIDManagerState :=
  if w.findCardIndex uid = -1 then (false, w)
  else
    RFIDManagerState.saveToEEPROM
      { w with authorizedCards := w.authorizedCards.eraseIdx (w.findCardIndex uid).toNat }

/-- `RFIDManager::resetToDefaults`: installs the five built-in cards and
saves. -/
def RFIDManagerState.resetToDefaults (w : RFIDManagerState) : RFIDManagerState :=
  (RFIDManagerState.saveToEEPROM { w with authorizedCards := defaultCards }).2

/-- `RFIDManager::initializeEEPROM` (renamed `initEEPROM` here): reads only
the magic tag; on mismatch reseeds via `resetToDefaults`. -/
def RFIDManagerState.initEEPROM (w : RFIDManagerState) : RFIDManagerState :=
  if w.eeprom.magic ≠ EEPROM_MAGIC then w.resetToDefaults else w

/-- `RFIDManager::loadFromEEPROM`: validates magic tag and card count
(`0 ≤ numCards ≤ MAX_RFID_CARDS`); on success copies the first `numCards`
records into memory, on failure returns false leaving memory untouched. -/
def RFIDManagerState.loadFromEEPROM (w : RFIDManagerState) : Bool × RFIDManagerState :=
  if w.eeprom.magic = EEPROM_MAGIC ∧ 0 ≤ w.eeprom.numCards ∧
      w.eeprom.numCards ≤ Int.ofNat MAX_RFID_CARDS then
    (true,
     { w with authorizedCards :=
        (List.range w.eeprom.numCards.toNat).map (fun i => w.eeprom.cards.getD i dummyCard) })
  else (false, w)

/-- Whitelist-loading portion of `RFIDManager::begin` applied to the EEPROM
snapshot `e` found at startup (the constructor leaves `_numCards = 0`):
`initializeEEPROM` then `loadFromEEPROM`. -/
def rfidBegin (e : EEPROMData) : Bool × RFIDManagerState :=
  RFIDManagerState.loadFromEEPROM
    (RFIDManagerState.initEEPROM { authorizedCards := [], eeprom := e })

/-- Counterexample to C7 as stated: a snapshot with a VALID magic tag but a
card count of 51 (outside `0..MAX_RFID_CARDS`) fails the structural check,
yet the whitelist is NOT reseeded to the 5 built-in default cards — the load
merely fails and the in-memory whitelist stays empty. -/
theorem rfidBegin_count_cex :
    (rfidBegin { magic := EEPROM_MAGIC, numCards := 51, cards := [] }).2.authorizedCards = [] ∧
    (rfidBegin { magic := EEPROM_MAGIC, numCards := 51, cards := [] }).2.authorizedCards
      ≠ defaultCards := by
  constructor
  · rfl
  · decide

/-- C7 (amended): at startup, a snapshot whose magic tag is wrong is reseeded
to the five built-in default cards, which the subsequent load reads back; a
snapshot with the correct tag but a card count outside `0..MAX_RFID_CARDS`
merely fails the load, leaving the in-memory whitelist in its prior empty
state — it is not reseeded. -/
theorem rfidBegin_reseed (e : EEPROMData) :
    (e.magic ≠ EEPROM_MAGIC →
      rfidBegin e =
        (true,
         { authorizedCards := defaultCards,
           eeprom := { magic := EEPROM_MAGIC, numCards := Int.ofNat defaultCards.length,
                       cards := defaultCards } })) ∧
    (e.magic = EEPROM_MAGIC →
      ¬ (0 ≤ e.numCards ∧ e.numCards ≤ Int.ofNat MAX_RFID_CARDS) →
      rfidBegin e = (false, { authorizedCards := [], eeprom := e })) := by
  constructor
  · intro hbad
    have h1 : RFIDManagerState.initEEPROM { authorizedCards := [], eeprom := e }
        = RFIDManagerState.resetToDefaults { authorizedCards := [], eeprom := e } := by
      rw [RFIDManagerState.initEEPROM, if_pos]
      exact hbad
    rw [rfidBegin, h1]
    rfl
  · intro hgood hbadcount
    have h1 : RFIDManagerState.initEEPROM { authorizedCards := [], eeprom := e }
        = { authorizedCards := [], eeprom := e } := by
      rw [RFIDManagerState.initEEPROM, if_neg]
      exact not_not_intro hgood
    rw [rfidBegin, h1, RFIDManagerState.loadFromEEPROM, if_neg]
    intro hcond
    exact hbadcount ⟨hcond.2.1, hcond.2.2⟩

/-- Witness for C7's amended theorem: a zeroed snapshot (bad tag) yields the
default whitelist; a valid tag with count -1 yields a failed load and an
empty whitelist. -/
theorem rfidBegin_reseed_witness :
    (rfidBegin { magic := 0, numCards := 0, cards := [] } =
      (true,
       { authorizedCards := defaultCards,
         eeprom := { magic := EEPROM_MAGIC, numCards := Int.ofNat defaultCards.length,
                     cards := defaultCards } })) ∧
    (rfidBegin { magic := EEPROM_MAGIC, numCards := -1, cards := [] } =
      (false,
       { authorizedCards := [],
         eeprom := { magic := EEPROM_MAGIC, numCards := -1, cards := [] } })) :=
  ⟨(rfidBegin_reseed { magic := 0, numCards := 0, cards := [] }).1 (by decide),
   (rfidBegin_reseed { magic := EEPROM_MAGIC, numCards := -1, cards := [] }).2
     rfl (by decide)⟩

/-- C8: `addCard` returns false and mutates nothing (neither the in-memory
whitelist nor the card count nor the EEPROM) when the UID is already present
or the whitelist already holds `MAX_RFID_CARDS` cards; `removeCard` returns
false and mutates nothing when the UID is absent. -/
theorem addCard_removeCard_guard (w : RFIDManagerState) (uid ownerName : String)
    (accessLevel : Int) :
    ((w.findCardIndex uid ≠ -1 ∨ MAX_RFID_CARDS ≤ w.authorizedCards.length) →
      w.addCard uid ownerName accessLevel = (false, w)) ∧
    (w.findCardIndex uid = -1 → w.removeCard uid = (false, w)) := by
  constructor
  · intro h
    rw [RFIDManagerState.addCard]
    rcases h with h | h
    · rw [if_pos h]
    · by_cases hf : w.findCardIndex uid ≠ -1
      · rw [if_pos hf]
      · rw [if_neg hf, if_pos h]
  · intro h
    rw [RFIDManagerState.removeCard, if_pos h]

/-- Witness for C8: re-adding a default card fails without mutation, and
removing an unknown card fails without mutation. -/
theorem addCard_removeCard_guard_witness :
    (RFIDManagerState.addCard
      { authorizedCards := defaultCards,
        eeprom := { magic := EEPROM_MAGIC, numCards := 5, cards := defaultCards } }
      "0A1B2C3D" "Dup" 0
      = (false,
         { authorizedCards := defaultCards,
           eeprom := { magic := EEPROM_MAGIC, numCards := 5, cards := defaultCards } })) ∧
    (RFIDManagerState.removeCard
      { authorizedCards := defaultCards,
        eeprom := { magic := EEPROM_MAGIC, numCards := 5, cards := defaultCards } }
      "DEADBEEF"
      = (false,
         { authorizedCards := defaultCards,
           eeprom := { magic := EEPROM_MAGIC, numCards := 5, cards := defaultCards } })) :=
  ⟨(addCard_removeCard_guard _ "0A1B2C3D" "Dup" 0).1 (Or.inl (by decide)),
   (addCard_removeCard_guard _ "DEADBEEF" "" 0).2 (by decide)⟩

theorem findCardIndexAux_mem_ne (uid : String) (l : List RFIDCard) (k : Nat)
    (h : ∃ c, c ∈ l ∧ c.uid = uid) : findCardIndexAux uid k l ≠ -1 := by
  induction l generalizing k with
  | nil =>
    obtain ⟨c, hc, _⟩ := h
    simp at hc
  | cons a t ih =>
    simp only [findCardIndexAux]
    split
    · intro hx
      simp only [Int.ofNat_eq_natCast] at hx
      omega
    · rename_i hne
      obtain ⟨c, hc, hcu⟩ := h
      rcases List.mem_cons.mp hc with rfl | hmem
      · exact absurd hcu.symm hne
      · exact ih (k + 1) ⟨c, hmem, hcu⟩

theorem isAuthorizedAux_inactive (uid : String) (l : List RFIDCard)
    (h : ∀ c, c ∈ l → c.uid = uid → c.isActive = false) :
    isAuthorizedAux uid l = false := by
  induction l with
  | nil => rfl
  | cons a t ih =>
    simp only [isAuthorizedAux]
    split
    · rename_i hcond
      have h2 := h a (List.mem_cons_self a t) hcond.1.symm
      rw [hcond.2] at h2
      exact h2
    · exact ih (fun c hc hcu => h c (List.mem_cons_of_mem a hc) hcu)

/-- C10: UID uniqueness is enforced over all records regardless of the
`isActive` flag — if the whitelist contains a record with UID `uid` and every
such record is deactivated, `addCard uid` still fails without mutation, even
though `isAuthorized uid` is false: the deactivated card occupies its UID
and blocks re-registration. -/
theorem inactive_card_blocks_readd (w : RFIDManagerState) (uid ownerName : String)
    (accessLevel : Int)
    (hmem : ∃ c, c ∈ w.authorizedCards ∧ c.uid = uid)
    (hinact : ∀ c, c ∈ w.authorizedCards → c.uid = uid → c.isActive = false) :
    w.addCard uid ownerName accessLevel = (false, w) ∧ w.isAuthorized uid = false := by
  have hf : w.findCardIndex uid ≠ -1 := findCardIndexAux_mem_ne uid w.authorizedCards 0 hmem
  constructor
  · rw [RFIDManagerState.addCard, if_pos hf]
  · exact isAuthorizedAux_inactive uid w.authorizedCards hinact

/-- A whitelist whose single record is deactivated, for the C10 witness. -/
def inactiveWlist : RFIDManagerState :=
  { authorizedCards :=
      [{ uid := "0A1B2C3D", isActive := false, accessLevel := 1, ownerName := "Admin" }],
    eeprom :=
      { magic := EEPROM_MAGIC, numCards := 1,
        cards := [{ uid := "0A1B2C3D", isActive := false, accessLevel := 1, ownerName := "Admin" }] } }

/-- Witness for C10: the deactivated card "0A1B2C3D" blocks re-registration
while not being authorized. -/
theorem inactive_card_blocks_readd_witness :
    RFIDManagerState.addCard inactiveWlist "0A1B2C3D" "Admin" 1 = (false, inactiveWlist) ∧
    RFIDManagerState.isAuthorized inactiveWlist "0A1B2C3D" = false :=
  inactive_card_blocks_readd inactiveWlist "0A1B2C3D" "Admin" 1
    ⟨{ uid := "0A1B2C3D", isActive := false, accessLevel := 1, ownerName := "Admin" },
     by decide, rfl⟩
    (fun c hc _ => by
      have hca : c = { uid := "0A1B2C3D", isActive := false, accessLevel := 1, ownerName := "Admin" } := by
        simpa [inactiveWlist] using hc
      rw [hca])
